import Mathlib

/-
Verification development for the ponder-ecs repository.

The repository is declarative infrastructure code: two successive revisions
of a CDK stack (src/infra.ts), two revisions of a container build file
(src/Dockerfile), a compose file and a CI workflow. The development below
embeds, as plain Lean definitions, the pieces of that code the claims are
about: the promotion Lambda handler (inlined in src/infra.ts), the alarm and
deployment-group configuration records, the listener topology of both stack
revisions, and the build semantics of the two Dockerfile revisions.
-/

namespace PonderEcs

/-- Deployment statuses of the external deployment service (CodeDeploy).
The handler in src/infra.ts filters on the status string Ready, which is the
waiting-for-approval state. -/
inductive DeploymentStatus
  | Created
  | Queued
  | InProgress
  | Baking
  | Ready
  | Succeeded
  | Failed
  | Stopped
  deriving DecidableEq, Repr

/-- A deployment record held by the external deployment service: an
identifier, a creation time, and a status. The repository code only ever
sees the identifier strings returned by the list call. -/
structure Deployment where
  deploymentId : String
  createTime : Nat
  status : DeploymentStatus
  deriving DecidableEq, Repr

/-- The list call issued by the handler (ListDeploymentsCommand with
includeOnlyStatuses Ready, src/infra.ts lines 529-534): the platform returns
the identifiers of the deployments whose status is Ready, in the platform
order of the group list. The repository code does not sort this result. -/
def listDeployments (group : List Deployment) : List String :=
  (group.filter (fun d => d.status == DeploymentStatus.Ready)).map
    (fun d => d.deploymentId)

/-- The continue call issued by the handler (ContinueDeploymentCommand,
src/infra.ts lines 541-544). -/
structure ContinueDeploymentRequest where
  deploymentId : String
  deploymentWaitType : String
  deriving DecidableEq, Repr

/-- A log line written by the handler: console.log becomes info,
console.error becomes error. -/
inductive LogEntry
  | info (msg : String)
  | error (msg : String)
  deriving DecidableEq, Repr

/-- How a handler invocation finishes: a normal return, or an error thrown
back to the invoking trigger infrastructure. -/
inductive HandlerOutcome
  | ok
  | thrown (err : String)
  deriving DecidableEq, Repr

/-- The observable effect of one handler invocation: the continue commands
sent (in order), the log lines written, and the outcome. -/
structure HandlerResult where
  continues : List ContinueDeploymentRequest
  logs : List LogEntry
  outcome : HandlerOutcome
  deriving DecidableEq, Repr

/-- APPLICATION_NAME environment value of the promoter Lambda
(src/infra.ts line 556). -/
def APPLICATION_NAME : String := "ponder-app"

/-- DEPLOYMENT_GROUP_NAME environment value of the promoter Lambda
(src/infra.ts line 557). -/
def DEPLOYMENT_GROUP_NAME : String := "ponder-app-deployment-group"

/-- The promoter Lambda handler (src/infra.ts lines 523-551). Its inputs are
the result of the list call (the Ready deployment identifiers, in platform
order) and the continue client, which either succeeds or fails with an
error. The handler logs, then: if the list is empty it logs and returns; the
code takes element 0 of the list and sends one continue command for it with
wait type READY_WAIT; on failure of that command it logs the error and
rethrows it. -/
def handler (listResult : List String)
    (sendContinue : String → Except String Unit) : HandlerResult :=
  let checking : LogEntry :=
    LogEntry.info (("Checking for ok deployments in app: ") ++ APPLICATION_NAME
      ++ (", group: ") ++ DEPLOYMENT_GROUP_NAME)
  match listResult with
  | [] =>
    ⟨[], [checking, LogEntry.info ("No deployments waiting for approval. Exiting.")],
      HandlerOutcome.ok⟩
  | d :: _ =>
    let found : LogEntry :=
      LogEntry.info (("Found waiting deployment: ") ++ d ++ (". Proceeding with approval."))
    let req : ContinueDeploymentRequest := ⟨d, ("READY_WAIT")⟩
    match sendContinue d with
    | Except.ok _ =>
      ⟨[req],
        [checking, found,
          LogEntry.info (("Successfully triggered continuation for deployment: ") ++ d)],
        HandlerOutcome.ok⟩
    | Except.error e =>
      ⟨[req],
        [checking, found,
          LogEntry.error (("Error processing deployment continuation: ") ++ e)],
        HandlerOutcome.thrown e⟩

/-- The rollback performed by the external platform on a deployment: its
status becomes Stopped, so it is no longer Ready (waiting for approval). -/
def rollbackDeployment (group : List Deployment) (targetId : String) :
    List Deployment :=
  group.map (fun d =>
    if d.deploymentId == targetId then
      { d with status := DeploymentStatus.Stopped }
    else d)

/-- Modelled from the spec: the selection rule the spec describes for the
Promotion Evaluator, namely the earliest deployment in waiting-for-approval
state, with ties broken by deployment identifier ordering. Stated here only
to compare against the selection the handler code actually performs. -/
def specEarliestWaiting (group : List Deployment) : Option Deployment :=
  (group.filter (fun d => d.status == DeploymentStatus.Ready)).foldl
    (fun acc d =>
      match acc with
      | none => some d
      | some b =>
        if d.createTime < b.createTime then some d
        else if d.createTime == b.createTime && d.deploymentId < b.deploymentId then some d
        else some b)
    none

/-- The two named target groups of the blue/green stack revision
(src/infra.ts lines 438-468). -/
inductive TargetGroupName
  | BlueTargetGroup
  | GreenTargetGroup
  deriving DecidableEq, Repr

/-- Health check configuration of a target group. -/
structure HealthCheck where
  path : String
  intervalSeconds : Nat
  timeoutSeconds : Nat
  healthyThresholdCount : Nat
  unhealthyThresholdCount : Nat
  deriving DecidableEq, Repr

/-- A target group: its name, its traffic port, and its health check. -/
structure ApplicationTargetGroup where
  name : TargetGroupName
  port : Nat
  healthCheck : HealthCheck
  deriving DecidableEq, Repr

/-- The blue (production) target group (src/infra.ts lines 438-450). -/
def blueTargetGroup : ApplicationTargetGroup :=
  ⟨TargetGroupName.BlueTargetGroup, 42069, ⟨("/health"), 60, 5, 2, 3⟩⟩

/-- The green (candidate) target group (src/infra.ts lines 456-468). -/
def greenTargetGroup : ApplicationTargetGroup :=
  ⟨TargetGroupName.GreenTargetGroup, 42069, ⟨("/ready"), 60, 5, 2, 3⟩⟩

/-- CloudWatch metric names used by the two alarms. -/
inductive MetricName
  | UnhealthyHostCount
  | HttpCodeTarget2XXCount
  deriving DecidableEq, Repr

/-- Statistic applied per period to a metric. -/
inductive MetricStatistic
  | Average
  | Sum
  deriving DecidableEq, Repr

/-- A metric as referenced by an alarm: the target group it is measured
over, the metric name, the statistic and the period. -/
structure Metric where
  targetGroup : TargetGroupName
  name : MetricName
  statistic : MetricStatistic
  periodSeconds : Nat
  deriving DecidableEq, Repr

/-- Comparison operators a CloudWatch alarm can use. -/
inductive ComparisonOperator
  | GreaterThanOrEqualToThreshold
  | GreaterThanThreshold
  | LessThanThreshold
  | LessThanOrEqualToThreshold
  deriving DecidableEq, Repr

/-- The two SNS topics of the blue/green stack revision. -/
inductive TopicName
  | AlarmTopic
  | PromotionTopic
  deriving DecidableEq, Repr

/-- A subscription on a topic: a URL endpoint or a Lambda function. -/
inductive Subscription
  | url (endpoint : String)
  | lambdaFunction (functionName : String)
  deriving DecidableEq, Repr

/-- An SNS topic with its display name and its subscriptions. -/
structure Topic where
  name : TopicName
  displayName : String
  subscriptions : List Subscription
  deriving DecidableEq, Repr

/-- Action an alarm takes when it enters the alarm state. -/
inductive AlarmAction
  | sns (topic : TopicName)
  deriving DecidableEq, Repr

/-- A CloudWatch alarm declaration: metric, threshold, number of evaluation
periods, comparison operator, and alarm actions. -/
structure Alarm where
  metric : Metric
  threshold : Nat
  evaluationPeriods : Nat
  comparisonOperator : ComparisonOperator
  alarmActions : List AlarmAction
  deriving DecidableEq, Repr

/-- Name of the promoter Lambda function (src/infra.ts line 518). -/
def promoterLambdaName : String := "DeploymentPromoterLambda"

/-- The rollback-notification topic (src/infra.ts lines 484-488), with its
operator-visible URL subscription. -/
def alarmTopic : Topic :=
  ⟨TopicName.AlarmTopic, ("Ponder-Test-Deployment-Alarms"),
    [Subscription.url ("https://webhook.site/6b2a7721-b4c5-47ac-8530-79b30eb40df2")]⟩

/-- The promotion topic (src/infra.ts lines 562-565), subscribed to by the
promoter Lambda. -/
def promotionTopic : Topic :=
  ⟨TopicName.PromotionTopic, ("Ponder-Deployment-Promotion-Topic"),
    [Subscription.lambdaFunction promoterLambdaName]⟩

/-- The unhealthy-hosts alarm (src/infra.ts lines 492-500): the green target
group metric unhealthyHostCount (CDK default statistic Average over 300
second periods), threshold 1, 2 evaluation periods, comparison greater than
or equal to threshold, notifying the alarm topic. -/
def unhealthyHostsAlarm : Alarm :=
  ⟨⟨TargetGroupName.GreenTargetGroup, MetricName.UnhealthyHostCount,
      MetricStatistic.Average, 300⟩,
    1, 2, ComparisonOperator.GreaterThanOrEqualToThreshold,
    [AlarmAction.sns TopicName.AlarmTopic]⟩

/-- The promotion alarm (src/infra.ts lines 569-581): the green target group
metric httpCodeTarget TARGET_2XX_COUNT with statistic Sum over 60 second
periods, threshold 2, 5 evaluation periods, comparison greater than or equal
to threshold, notifying the promotion topic. -/
def promotionAlarm : Alarm :=
  ⟨⟨TargetGroupName.GreenTargetGroup, MetricName.HttpCodeTarget2XXCount,
      MetricStatistic.Sum, 60⟩,
    2, 5, ComparisonOperator.GreaterThanOrEqualToThreshold,
    [AlarmAction.sns TopicName.PromotionTopic]⟩

/-- Whether one datapoint breaches the alarm threshold under the alarm
comparison operator (CloudWatch evaluation semantics). -/
def breaches (a : Alarm) (v : Nat) : Bool :=
  match a.comparisonOperator with
  | ComparisonOperator.GreaterThanOrEqualToThreshold => a.threshold ≤ v
  | ComparisonOperator.GreaterThanThreshold => a.threshold < v
  | ComparisonOperator.LessThanThreshold => v < a.threshold
  | ComparisonOperator.LessThanOrEqualToThreshold => v ≤ a.threshold

/-- Whether the alarm enters the alarm state on a window of consecutive
per-period datapoints: the window spans exactly the configured number of
evaluation periods and every datapoint in it breaches the threshold. -/
def firesOn (a : Alarm) (window : List Nat) : Bool :=
  window.length == a.evaluationPeriods && window.all (fun v => breaches a v)

/-- Auto-rollback configuration of the deployment group
(src/infra.ts lines 612-616). -/
structure AutoRollbackConfig where
  failedDeployment : Bool
  stoppedDeployment : Bool
  deploymentInAlarm : Bool
  deriving DecidableEq, Repr

/-- Whether the platform rolls a deployment back, given the auto-rollback
configuration and which of the three conditions hold for the deployment
(the deployment failed, the deployment was stopped, a configured alarm is in
alarm state). -/
def rollbackTriggered (cfg : AutoRollbackConfig)
    (failed stopped inAlarm : Bool) : Bool :=
  (cfg.failedDeployment && failed) || (cfg.stoppedDeployment && stopped)
    || (cfg.deploymentInAlarm && inAlarm)

/-- Blue/green configuration of the deployment group
(src/infra.ts lines 602-609), durations in seconds. -/
structure BlueGreenDeploymentConfig where
  blueTargetGroup : TargetGroupName
  greenTargetGroup : TargetGroupName
  listenerPort : Nat
  testListenerPort : Nat
  deploymentApprovalWaitTimeSeconds : Nat
  terminationWaitTimeSeconds : Nat
  deriving DecidableEq, Repr

/-- The deployment group (src/infra.ts lines 596-617). -/
structure EcsDeploymentGroup where
  deploymentGroupName : String
  alarms : List Alarm
  blueGreenDeploymentConfig : BlueGreenDeploymentConfig
  autoRollback : AutoRollbackConfig
  deriving DecidableEq, Repr

/-- Seconds in a duration of n days (cdk.Duration.days). -/
def durationDaysSeconds (n : Nat) : Nat := n * 24 * 60 * 60

/-- Seconds in a duration of n minutes (cdk.Duration.minutes). -/
def durationMinutesSeconds (n : Nat) : Nat := n * 60

/-- The deployment group as declared in src/infra.ts lines 596-617: the
unhealthy-hosts alarm attached, blue and green target groups, production
listener on 80 and test listener on 42069, approval wait of 2 days,
termination wait of 5 minutes, and auto rollback on failed deployments,
stopped deployments and deployments in alarm. -/
def deploymentGroup : EcsDeploymentGroup :=
  ⟨("ponder-app-deployment-group"),
    [unhealthyHostsAlarm],
    ⟨TargetGroupName.BlueTargetGroup, TargetGroupName.GreenTargetGroup,
      80, 42069, durationDaysSeconds 2, durationMinutesSeconds 5⟩,
    ⟨true, true, true⟩⟩

/-- A load balancer listener of the blue/green revision: its port and the
target group its default action forwards to. -/
structure ListenerDecl where
  port : Nat
  forwardTo : TargetGroupName
  deriving DecidableEq, Repr

/-- The production listener of the blue/green revision (src/infra.ts lines
432-435 and 470-473): port 80, forwarding to the blue target group. -/
def listener : ListenerDecl := ⟨80, TargetGroupName.BlueTargetGroup⟩

/-- The test listener of the blue/green revision (src/infra.ts lines
476-481): port 42069, forwarding to the green target group. -/
def testListener : ListenerDecl := ⟨42069, TargetGroupName.GreenTargetGroup⟩

/-- Container port of the application container in the blue/green revision
(src/infra.ts lines 391-396). -/
def appContainerPort : Nat := 42069

namespace Rev1

/-- Container port of the application container in the earliest stack
revision present in the source (src/infra.ts lines 108-110, portMappings
containerPort). -/
def ponderContainerPort : Nat := 42069

/-- Port of the single listener of the earliest stack revision
(src/infra.ts lines 153-156). -/
def listenerPort : Nat := 80

/-- Target port the earliest-revision listener forwards to
(src/infra.ts lines 158-169, addTargets port). -/
def listenerTargetPort : Nat := 42069

end Rev1

/-- A fragment of the value of an ENV instruction: a literal piece or a
variable reference to be expanded at build time. -/
inductive EnvPart
  | lit (s : String)
  | var (name : String)
  deriving DecidableEq, Repr

/-- A Dockerfile instruction, covering the instruction kinds the two
Dockerfile revisions in src/Dockerfile use, plus ARG, which build-argument
semantics needs and which neither revision declares. -/
inductive DockerInstr
  | fromImage (image : String)
  | envSet (name : String) (value : List EnvPart)
  | runCmd (cmd : String)
  | workdir (path : String)
  | copy (sources : List String) (dest : String)
  | add (source : String) (dest : String)
  | expose (port : Nat)
  | cmd (argv : List String)
  | argDecl (name : String)
  deriving DecidableEq, Repr

/-- The image a successful build produces: base image, environment
variables baked into the image, exposed ports, and start command. -/
structure Image where
  baseImage : String
  env : List (String × String)
  exposedPorts : List Nat
  startCmd : List String
  deriving DecidableEq, Repr

/-- Intermediate state while executing build instructions. The env list is
ordered newest first, so lookup sees the latest assignment. -/
structure BuildState where
  baseImage : String
  env : List (String × String)
  argScope : List (String × String)
  exposedPorts : List Nat
  startCmd : List String
  deriving DecidableEq, Repr

/-- Variable expansion at build time (Docker semantics): an environment
variable set earlier wins, otherwise an ARG in scope, otherwise the
variable expands to the empty string. -/
def lookupVar (env args : List (String × String)) (n : String) : String :=
  ((env.lookup n).orElse (fun _ => args.lookup n)).getD ""

/-- Expand the value of an ENV instruction against the current environment
and ARG scope. -/
def expandValue (env args : List (String × String)) (v : List EnvPart) : String :=
  v.foldl
    (fun acc p =>
      acc ++ (match p with
        | EnvPart.lit s => s
        | EnvPart.var n => lookupVar env args n))
    ""

/-- Execute one build instruction. providedArgs are the build arguments
given on the command line; an ARG declaration brings its value (or the
empty default) into scope, and a provided argument with no matching ARG
declaration never reaches the build. The shellOk oracle tells whether a RUN
command exits successfully; a failing RUN fails the build, and no other
instruction of this instruction set can fail. -/
def buildStep (providedArgs : List (String × String)) (shellOk : String → Bool)
    (st : BuildState) (i : DockerInstr) : Except String BuildState :=
  match i with
  | DockerInstr.fromImage img => Except.ok { st with baseImage := img }
  | DockerInstr.envSet n v =>
    Except.ok { st with env := (n, expandValue st.env st.argScope v) :: st.env }
  | DockerInstr.runCmd c =>
    if shellOk c then Except.ok st else Except.error (("RUN failed: ") ++ c)
  | DockerInstr.workdir _ => Except.ok st
  | DockerInstr.copy _ _ => Except.ok st
  | DockerInstr.add _ _ => Except.ok st
  | DockerInstr.expose p =>
    Except.ok { st with exposedPorts := st.exposedPorts ++ [p] }
  | DockerInstr.cmd a => Except.ok { st with startCmd := a }
  | DockerInstr.argDecl n =>
    Except.ok { st with argScope := (n, (providedArgs.lookup n).getD "") :: st.argScope }

/-- Run a whole build: fold the instructions over the build state, starting
from the base environment, and package the final state as an image. -/
def dockerBuild (instrs : List DockerInstr)
    (providedArgs : List (String × String))
    (baseEnv : List (String × String)) (shellOk : String → Bool) :
    Except String Image :=
  (instrs.foldlM (buildStep providedArgs shellOk) ⟨"", baseEnv, [], [], []⟩).map
    (fun st => ⟨st.baseImage, st.env, st.exposedPorts, st.startCmd⟩)

/-- First Dockerfile revision (src/Dockerfile lines 1-17), instruction by
instruction. Note the ENV DATABASE_SCHEMA line references a variable no ARG
instruction declares. -/
def dockerfileRev1 : List DockerInstr :=
  [DockerInstr.fromImage ("node:alpine"),
   DockerInstr.envSet ("PNPM_HOME") [EnvPart.lit ("/pnpm")],
   DockerInstr.envSet ("PATH")
     [EnvPart.var ("PNPM_HOME"), EnvPart.lit (":"), EnvPart.var ("PATH")],
   DockerInstr.runCmd ("corepack enable"),
   DockerInstr.workdir ("/app"),
   DockerInstr.copy [("package.json"), ("pnpm-lock.yaml")] ("./"),
   DockerInstr.runCmd ("pnpm install"),
   DockerInstr.add (".") ("."),
   DockerInstr.expose 42069,
   DockerInstr.envSet ("DATABASE_SCHEMA") [EnvPart.var ("DATABASE_SCHEMA")],
   DockerInstr.cmd [("pnpm"), ("start")]]

/-- Second Dockerfile revision (src/Dockerfile lines 17-32), instruction by
instruction. As in the first revision, no ARG instruction declares
DATABASE_SCHEMA. -/
def dockerfileRev2 : List DockerInstr :=
  [DockerInstr.fromImage ("node:20-slim"),
   DockerInstr.workdir ("/app"),
   DockerInstr.envSet ("PNPM_HOME") [EnvPart.lit ("/pnpm")],
   DockerInstr.envSet ("PATH")
     [EnvPart.var ("PNPM_HOME"), EnvPart.lit (":"), EnvPart.var ("PATH")],
   DockerInstr.runCmd ("corepack enable"),
   DockerInstr.copy [("package.json"), ("pnpm-lock.yaml")] ("./"),
   DockerInstr.runCmd ("pnpm install --frozen-lockfile"),
   DockerInstr.add (".") ("."),
   DockerInstr.expose 42069,
   DockerInstr.envSet ("DATABASE_SCHEMA") [EnvPart.var ("DATABASE_SCHEMA")],
   DockerInstr.cmd [("pnpm"), ("start")]]

/-- Whether an instruction list declares a build argument of the given
name. -/
def declaresArg (instrs : List DockerInstr) (n : String) : Bool :=
  instrs.any (fun i =>
    match i with
    | DockerInstr.argDecl m => m == n
    | _ => false)

/-- Claim C1, counterexample. The claim says the continue instruction is
addressed to the earliest waiting deployment, ties broken by deployment
identifier ordering. The handler code takes element 0 of the list result
without sorting, so when the platform returns the Ready identifiers in an
order whose head is not the earliest deployment, the handler continues a
deployment different from the one the claim selects: here the group holds
d-2 created at time 5 listed first and d-1 created at time 3 listed second,
the handler continues d-2, while the earliest waiting deployment is d-1. -/
theorem c1_counterexample :
    (handler
        (listDeployments
          [⟨("d-2"), 5, DeploymentStatus.Ready⟩, ⟨("d-1"), 3, DeploymentStatus.Ready⟩])
        (fun _ => Except.ok ())).continues = [⟨("d-2"), ("READY_WAIT")⟩]
    ∧ (specEarliestWaiting
          [⟨("d-2"), 5, DeploymentStatus.Ready⟩, ⟨("d-1"), 3, DeploymentStatus.Ready⟩]).map
        (fun d => d.deploymentId) = some ("d-1")
    ∧ (("d-2") : String) ≠ ("d-1") := by
  refine ⟨rfl, rfl, ?_⟩
  decide

/-- Claim C1, amended: for every invocation against a deployment group with
at least one deployment in the waiting-for-approval state, the evaluator
issues exactly one continue instruction, and it is addressed to the first
deployment in the order the deployment-listing query returns; at most one
continue instruction is issued per invocation even when multiple
deployments qualify. -/
theorem c1_amended (group : List Deployment)
    (sendContinue : String → Except String Unit) (d : String) (rest : List String)
    (h : listDeployments group = d :: rest) :
    (handler (listDeployments group) sendContinue).continues = [⟨d, ("READY_WAIT")⟩] := by
  rw [h]
  cases hc : sendContinue d <;> simp [handler, hc]

/-- Witness for c1_amended at a singleton group. -/
theorem c1_amended_witness :
    (handler (listDeployments [⟨("d-123"), 0, DeploymentStatus.Ready⟩])
        (fun _ => Except.ok ())).continues = [⟨("d-123"), ("READY_WAIT")⟩] :=
  c1_amended [⟨("d-123"), 0, DeploymentStatus.Ready⟩] (fun _ => Except.ok ())
    ("d-123") [] rfl

/-- Claim C2: for every invocation against a deployment group with zero
deployments in the waiting-for-approval state, no continue instruction is
issued and the invocation returns successfully, whatever the continue
client would have answered; the handler is pure, so every redundant
invocation behaves the same way. -/
theorem c2_empty_group_noop (group : List Deployment)
    (sendContinue : String → Except String Unit)
    (h : listDeployments group = []) :
    (handler (listDeployments group) sendContinue).continues = []
    ∧ (handler (listDeployments group) sendContinue).outcome = HandlerOutcome.ok := by
  rw [h]
  exact ⟨rfl, rfl⟩

/-- Witness for c2_empty_group_noop at a group whose only deployment is in
progress, hence not waiting for approval. -/
theorem c2_empty_group_noop_witness :
    (handler (listDeployments [⟨("d-9"), 1, DeploymentStatus.InProgress⟩])
        (fun _ => Except.ok ())).continues = []
    ∧ (handler (listDeployments [⟨("d-9"), 1, DeploymentStatus.InProgress⟩])
        (fun _ => Except.ok ())).outcome = HandlerOutcome.ok :=
  c2_empty_group_noop [⟨("d-9"), 1, DeploymentStatus.InProgress⟩]
    (fun _ => Except.ok ()) rfl

/-- Claim C3: when every waiting deployment of the group is the rolled-back
one, rollback determines the final state: after the rollback the deployment
is Stopped and no longer waiting for approval, the list query returns
nothing, and a subsequent promotion invocation issues no continue and
returns successfully. The resolution is exactly the empty-list branch of
the handler, not a priority check: the handler output depends only on the
list result. -/
theorem c3_rollback_precedence (group : List Deployment) (d : Deployment)
    (sendContinue : String → Except String Unit)
    (honly : ∀ x ∈ group,
      x.status = DeploymentStatus.Ready → x.deploymentId = d.deploymentId) :
    (∀ x ∈ rollbackDeployment group d.deploymentId,
        x.deploymentId = d.deploymentId → x.status = DeploymentStatus.Stopped)
    ∧ listDeployments (rollbackDeployment group d.deploymentId) = []
    ∧ (handler (listDeployments (rollbackDeployment group d.deploymentId))
        sendContinue).continues = []
    ∧ (handler (listDeployments (rollbackDeployment group d.deploymentId))
        sendContinue).outcome = HandlerOutcome.ok := by
  have h2 : listDeployments (rollbackDeployment group d.deploymentId) = [] := by
    simp only [listDeployments, List.map_eq_nil_iff]
    rw [List.filter_eq_nil_iff]
    intro a ha
    simp only [rollbackDeployment, List.mem_map] at ha
    obtain ⟨y, hy, rfl⟩ := ha
    by_cases hc : y.deploymentId = d.deploymentId
    · simp [hc]
    · rw [if_neg (by simpa using hc)]
      simp only [beq_iff_eq]
      intro hready
      exact hc (honly y hy hready)
  refine ⟨?_, h2, ?_, ?_⟩
  · intro x hx hid
    simp only [rollbackDeployment, List.mem_map] at hx
    obtain ⟨y, hy, rfl⟩ := hx
    by_cases hc : y.deploymentId = d.deploymentId
    · simp [hc]
    · rw [if_neg (by simpa using hc)] at hid ⊢
      exact absurd hid hc
  · rw [h2]; rfl
  · rw [h2]; rfl

/-- Witness for c3_rollback_precedence at a group holding one waiting
deployment, d-123, which is the one rolled back. -/
theorem c3_rollback_precedence_witness :
    (∀ x ∈ rollbackDeployment [⟨("d-123"), 0, DeploymentStatus.Ready⟩] ("d-123"),
        x.deploymentId = ("d-123") → x.status = DeploymentStatus.Stopped)
    ∧ listDeployments
        (rollbackDeployment [⟨("d-123"), 0, DeploymentStatus.Ready⟩] ("d-123")) = []
    ∧ (handler
        (listDeployments
          (rollbackDeployment [⟨("d-123"), 0, DeploymentStatus.Ready⟩] ("d-123")))
        (fun _ => Except.ok ())).continues = []
    ∧ (handler
        (listDeployments
          (rollbackDeployment [⟨("d-123"), 0, DeploymentStatus.Ready⟩] ("d-123")))
        (fun _ => Except.ok ())).outcome = HandlerOutcome.ok :=
  c3_rollback_precedence [⟨("d-123"), 0, DeploymentStatus.Ready⟩]
    ⟨("d-123"), 0, DeploymentStatus.Ready⟩ (fun _ => Except.ok ()) (by decide)

/-- Claim C4: when the continue instruction fails, the handler logs the
failure, re-raises the error to the invoking trigger infrastructure (its
outcome is the thrown error, not a normal return), and sends the continue
command exactly once, with no local retry. -/
theorem c4_error_reraised (listResult : List String)
    (sendContinue : String → Except String Unit) (d e : String)
    (rest : List String)
    (hlist : listResult = d :: rest)
    (herr : sendContinue d = Except.error e) :
    (handler listResult sendContinue).outcome = HandlerOutcome.thrown e
    ∧ (handler listResult sendContinue).continues = [⟨d, ("READY_WAIT")⟩]
    ∧ LogEntry.error (("Error processing deployment continuation: ") ++ e)
        ∈ (handler listResult sendContinue).logs := by
  subst hlist
  simp [handler, herr]

/-- Witness for c4_error_reraised at a failing continue client. -/
theorem c4_error_reraised_witness :
    (handler [("d-123")] (fun _ => Except.error ("deployment gone"))).outcome
        = HandlerOutcome.thrown ("deployment gone")
    ∧ (handler [("d-123")] (fun _ => Except.error ("deployment gone"))).continues
        = [⟨("d-123"), ("READY_WAIT")⟩]
    ∧ LogEntry.error (("Error processing deployment continuation: ")
          ++ ("deployment gone"))
        ∈ (handler [("d-123")] (fun _ => Except.error ("deployment gone"))).logs :=
  c4_error_reraised [("d-123")] (fun _ => Except.error ("deployment gone"))
    ("d-123") ("deployment gone") [] rfl rfl

/-- Claim C5, counterexample. The claim says a container build invoked
without the schema-name build argument fails with a non-zero status and
produces no image. Neither Dockerfile revision declares an ARG for
DATABASE_SCHEMA or checks it; building either revision with no build
arguments succeeds, produces an image, and silently defaults the
DATABASE_SCHEMA environment variable to the empty string. -/
theorem c5_counterexample :
    ((dockerBuild dockerfileRev1 [] [] (fun _ => true)).toOption.map
        (fun img => img.env.lookup ("DATABASE_SCHEMA"))) = some (some (""))
    ∧ ((dockerBuild dockerfileRev2 [] [] (fun _ => true)).toOption.map
        (fun img => img.env.lookup ("DATABASE_SCHEMA"))) = some (some (""))
    ∧ declaresArg dockerfileRev1 ("DATABASE_SCHEMA") = false
    ∧ declaresArg dockerfileRev2 ("DATABASE_SCHEMA") = false :=
  ⟨rfl, rfl, rfl, rfl⟩

/-- Claim C5, amended: a container build invoked without the schema
parameter does not fail because of it. Neither Dockerfile revision declares
a schema build argument, so provided that the RUN commands of the revision
succeed, the build produces an image whatever build arguments are given
(including none), and DATABASE_SCHEMA is silently defaulted to the empty
string in the image environment. -/
theorem c5_amended (providedArgs : List (String × String))
    (shellOk : String → Bool)
    (h1 : shellOk ("corepack enable") = true)
    (h2 : shellOk ("pnpm install") = true)
    (h3 : shellOk ("pnpm install --frozen-lockfile") = true) :
    ((dockerBuild dockerfileRev1 providedArgs [] shellOk).toOption.map
        (fun img => img.env.lookup ("DATABASE_SCHEMA"))) = some (some (""))
    ∧ ((dockerBuild dockerfileRev2 providedArgs [] shellOk).toOption.map
        (fun img => img.env.lookup ("DATABASE_SCHEMA"))) = some (some ("")) := by
  constructor <;>
  · simp [dockerBuild, dockerfileRev1, dockerfileRev2, buildStep, h1, h2, h3,
      expandValue, lookupVar, List.foldlM, Except.map]
    exact ⟨_, rfl, rfl⟩

/-- Witness for c5_amended: the CI workflow passes a DATABASE_SCHEMA build
argument, and even then the image ends up with an empty schema, since no
ARG declaration receives it. -/
theorem c5_amended_witness :
    ((dockerBuild dockerfileRev1 [(("DATABASE_SCHEMA"), ("abc123"))] []
          (fun _ => true)).toOption.map
        (fun img => img.env.lookup ("DATABASE_SCHEMA"))) = some (some (""))
    ∧ ((dockerBuild dockerfileRev2 [(("DATABASE_SCHEMA"), ("abc123"))] []
          (fun _ => true)).toOption.map
        (fun img => img.env.lookup ("DATABASE_SCHEMA"))) = some (some ("")) :=
  c5_amended [(("DATABASE_SCHEMA"), ("abc123"))] (fun _ => true) rfl rfl rfl

/-- Claim C6: the unhealthy-hosts alarm is declared over the green target
group unhealthy-instance-count metric, it enters the alarm state exactly on
a window of 2 consecutive evaluation periods whose datapoints are all at
least 1, and it is attached to the deployment group whose auto-rollback
configuration rolls back a deployment in alarm, so its firing forces
rollback of the in-flight deployment. -/
theorem c6_unhealthy_hosts_alarm :
    unhealthyHostsAlarm.metric =
      ⟨TargetGroupName.GreenTargetGroup, MetricName.UnhealthyHostCount,
        MetricStatistic.Average, 300⟩
    ∧ unhealthyHostsAlarm.metric.targetGroup = greenTargetGroup.name
    ∧ (∀ window : List Nat,
        firesOn unhealthyHostsAlarm window = true ↔
          (window.length = 2 ∧ ∀ v ∈ window, 1 ≤ v))
    ∧ unhealthyHostsAlarm ∈ deploymentGroup.alarms
    ∧ deploymentGroup.autoRollback.deploymentInAlarm = true
    ∧ (∀ failed stopped : Bool,
        rollbackTriggered deploymentGroup.autoRollback failed stopped true = true) := by
  refine ⟨rfl, rfl, ?_, ?_, rfl, ?_⟩
  · intro w
    simp [firesOn, breaches, unhealthyHostsAlarm]
  · simp [deploymentGroup]
  · decide

/-- Claim C7: the promotion alarm is declared over the green target group
successful-response-count metric (2XX target responses, summed per 60
second period), it enters the alarm state exactly on a window of 5
consecutive periods whose per-period counts are all at least the threshold
2, and its alarm action notifies the promotion topic, whose only
subscription invokes the promoter Lambda. -/
theorem c7_promotion_alarm :
    promotionAlarm.metric =
      ⟨TargetGroupName.GreenTargetGroup, MetricName.HttpCodeTarget2XXCount,
        MetricStatistic.Sum, 60⟩
    ∧ promotionAlarm.metric.targetGroup = greenTargetGroup.name
    ∧ (∀ window : List Nat,
        firesOn promotionAlarm window = true ↔
          (window.length = 5 ∧ ∀ v ∈ window, 2 ≤ v))
    ∧ promotionAlarm.alarmActions = [AlarmAction.sns TopicName.PromotionTopic]
    ∧ promotionTopic.subscriptions = [Subscription.lambdaFunction promoterLambdaName] := by
  refine ⟨rfl, rfl, ?_, rfl, rfl⟩
  intro w
  simp [firesOn, breaches, promotionAlarm]

/-- Claim C8, counterexample. The claim says the application container
service port defaults to 3000 in the earliest revision; in the earliest
revision present in the source it is 42069 (src/infra.ts lines 108-110). -/
theorem c8_counterexample :
    Rev1.ponderContainerPort = 42069 ∧ Rev1.ponderContainerPort ≠ 3000 := by
  decide

/-- Claim C8, amended: in every revision of the topology present in the
source, the production listener listens on port 80 and forwards to the
application container service port, which is 42069 in the earliest revision
as well as in the blue/green revision; the blue/green revision additionally
declares a secondary test listener on the application service port routing
to the green (candidate) target group. -/
theorem c8_amended :
    Rev1.listenerPort = 80
    ∧ Rev1.listenerTargetPort = Rev1.ponderContainerPort
    ∧ Rev1.ponderContainerPort = 42069
    ∧ listener.port = 80
    ∧ listener.forwardTo = TargetGroupName.BlueTargetGroup
    ∧ blueTargetGroup.port = appContainerPort
    ∧ testListener.port = appContainerPort
    ∧ testListener.forwardTo = TargetGroupName.GreenTargetGroup
    ∧ appContainerPort = 42069 := by
  decide

/-- Claim C9: the blue/green revision configures automatic rollback for
failed deployments, stopped deployments and deployments in alarm, all
three; a deployment meeting any one of the three conditions is rolled
back. -/
theorem c9_auto_rollback :
    deploymentGroup.autoRollback = ⟨true, true, true⟩
    ∧ (∀ failed stopped inAlarm : Bool,
        rollbackTriggered deploymentGroup.autoRollback failed stopped inAlarm
          = (failed || stopped || inAlarm)) := by
  refine ⟨rfl, ?_⟩
  decide

/-- Claim C10: the blue/green deployment configuration waits at most 2 days
(172800 seconds) for approval of a waiting deployment, and retains the
previous task set for 5 minutes (300 seconds) after promotion before
termination. -/
theorem c10_wait_times :
    deploymentGroup.blueGreenDeploymentConfig.deploymentApprovalWaitTimeSeconds
        = durationDaysSeconds 2
    ∧ durationDaysSeconds 2 = 172800
    ∧ deploymentGroup.blueGreenDeploymentConfig.terminationWaitTimeSeconds
        = durationMinutesSeconds 5
    ∧ durationMinutesSeconds 5 = 300 := by
  decide

end PonderEcs
